import Mathlib

/-
Verification of the fb_sender core: a shallow embedding of
src/app/storage.py, src/app/task_engine.py, src/app/profile_manager.py and
src/app/automations/fb_worker.py.

Modelling conventions:
* timestamps are Nat (ISO-8601 strings in the SQLite schema compare in the
  same order as the instants they denote);
* the uids table is a List Row, the uid_events table a List UidEvent, and the
  current day's daily_counters row a DailyCounter, all passed explicitly;
* Python status strings are kept as String constants, mirroring storage.py;
* the external send call of task_engine.py line 132 is a parameter of type
  Except String SendResult: Except.error models a raised exception (the
  source wraps that call in no try/except, so an exception propagates).
-/

-- ---------------------------------------------------------------------
-- storage.py: status constants
-- ---------------------------------------------------------------------

def STATUS_FRESH : String := "FRESH"

def STATUS_IN_PROGRESS : String := "IN_PROGRESS"

def STATUS_SUCCESS : String := "SUCCESS"

def STATUS_FAIL_RETRYABLE : String := "FAIL_RETRYABLE"

def STATUS_FAIL_PERM : String := "FAIL_PERM"

-- ---------------------------------------------------------------------
-- Data model: uids rows, uid_events rows, daily_counters row
-- ---------------------------------------------------------------------

/-- One row of the `uids` table (storage.py init_db). -/
structure Row where
  id : Nat
  rawInput : String
  normalizedUid : String
  profileId : Nat
  status : String
  attempts : Nat
  lastErrorCode : Option String
  lastErrorMsg : Option String
  lastEvidencePath : Option String
  firstSeenAt : Nat
  lastUpdatedAt : Nat
  lastStartedAt : Option Nat
  nextAttemptAfter : Option Nat
  heartbeatAt : Option Nat
deriving Repr, DecidableEq

/-- One row of the `uid_events` table; event_data is audit-only (never read
back into control decisions), so only uid_id and event_type are modelled. -/
structure UidEvent where
  uidId : Nat
  eventType : String
deriving Repr, DecidableEq

/-- The current day's `daily_counters` row for the profile. -/
structure DailyCounter where
  sentSuccess : Nat
  sentFail : Nat
deriving Repr, DecidableEq

/-- The durable store: uids plus their event log; nextId models the
autoincrementing primary key. -/
structure Store where
  rows : List Row
  events : List UidEvent
  nextId : Nat
deriving Repr, DecidableEq

/-- Return shape of storage.add_uids. -/
structure ImportReport where
  added : Nat
  duplicates : Nat
  invalid : List (String × String)
deriving Repr, DecidableEq

-- ---------------------------------------------------------------------
-- Python string primitives used by storage.normalize_uid
-- ---------------------------------------------------------------------

/-- Whitespace stripped by Python str.strip (ASCII fragment). -/
def isPySpace (c : Char) : Bool :=
  c == ' ' || c == '\t' || c == '\n' || c == '\r' || c == '\x0b' || c == '\x0c'

/-- Python str.strip. -/
def pyStrip (s : String) : String :=
  String.mk (((s.data.dropWhile isPySpace).reverse.dropWhile isPySpace).reverse)

/-- Python str.lower (ASCII fragment, which is all the source compares). -/
def strLower (s : String) : String :=
  String.mk (s.data.map Char.toLower)

def listStartsWith : List Char → List Char → Bool
  | _, [] => true
  | [], _ :: _ => false
  | a :: as, b :: bs => a == b && listStartsWith as bs

def listContainsSub : List Char → List Char → Bool
  | [], needle => needle.isEmpty
  | hay@(_ :: rest), needle => listStartsWith hay needle || listContainsSub rest needle

/-- Python `needle in hay` on strings. -/
def strContainsSub (hay needle : String) : Bool :=
  listContainsSub hay.data needle.data

/-- Python str.startswith. -/
def strStartsWith (s pfx : String) : Bool :=
  listStartsWith s.data pfx.data

/-- Python `value[len(pfx):]`. -/
def dropPfx (s pfx : String) : String :=
  String.mk (s.data.drop pfx.data.length)

/-- Python `value.rstrip("/")`. -/
def rstripSlash (s : String) : String :=
  String.mk ((s.data.reverse.dropWhile (· == '/')).reverse)

/-- Split at the first occurrence of c, or none if absent. -/
def splitOnceAux (c : Char) : List Char → Option (List Char × List Char)
  | [] => none
  | x :: xs =>
    if x == c then some ([], xs)
    else
      match splitOnceAux c xs with
      | none => none
      | some (a, b) => some (x :: a, b)

/-- Python `path, query = value.split("?", 1) if "?" in value else (value, "")`. -/
def splitPathQuery (value : String) : String × String :=
  match splitOnceAux '?' value.data with
  | some (p, q) => (String.mk p, String.mk q)
  | none => (value, "")

def splitAllAux (c : Char) : List Char → List Char → List (List Char)
  | [], acc => [acc.reverse]
  | x :: xs, acc =>
    if x == c then acc.reverse :: splitAllAux c xs [] else splitAllAux c xs (x :: acc)

/-- Python str.split on a single-character separator. -/
def splitAll (c : Char) (s : String) : List String :=
  (splitAllAux c s.data []).map String.mk

/-- Python `part.split("=", 1)[1]` (used only when '=' is present). -/
def afterFirstEq (part : String) : String :=
  match splitOnceAux '=' part.data with
  | some (_, b) => String.mk b
  | none => part

/-- Python str.isdigit (ASCII: nonempty and all digits). -/
def pyIsDigit (s : String) : Bool :=
  !s.data.isEmpty && s.data.all Char.isDigit

/-- The character set accepted by storage.normalize_uid for bare usernames. -/
def allowedUidChar (c : Char) : Bool :=
  ("abcdefghijklmnopqrstuvwxyz0123456789._".data).contains c

-- ---------------------------------------------------------------------
-- storage.normalize_uid
-- ---------------------------------------------------------------------

/-- Embedding of storage.normalize_uid (storage.py lines 187-230): returns
(normalized, reason). -/
def normalizeUid (raw : String) : Option String × Option String :=
  if raw = "" then (none, some "Empty line")
  else
    let value := pyStrip raw
    if value = "" then (none, some "Empty line")
    else
      let lower := strLower value
      if strContainsSub lower "facebook.com" then
        let value :=
          if strStartsWith value "https://" then dropPfx value "https://"
          else if strStartsWith value "http://" then dropPfx value "http://"
          else value
        let value := rstripSlash value
        let pq := splitPathQuery value
        let path := pq.1
        let query := pq.2
        if strContainsSub path "profile.php" && strContainsSub query "id=" then
          match (splitAll '&' query).find?
              (fun part => strStartsWith part "id=" && pyIsDigit (afterFirstEq part)) with
          | some part => (some (afterFirstEq part), none)
          | none => (none, some "Could not parse profile id")
        else
          let pathParts := (splitAll '/' path).filter
            (fun p => p ≠ "" && p ≠ "www.facebook.com")
          match pathParts.getLast? with
          | none => (none, some "Invalid Facebook URL")
          | some candidate => (some candidate, none)
      else if pyIsDigit value then (some value, none)
      else
        let cleaned := pyStrip value
        if (strLower cleaned).data.all allowedUidChar then (some cleaned, none)
        else (none, some "Unsupported UID format")

-- ---------------------------------------------------------------------
-- storage.add_uids
-- ---------------------------------------------------------------------

/-- The UNIQUE(profile_id, normalized_uid) constraint of the uids table. -/
def hasUid (rows : List Row) (pid : Nat) (normalized : String) : Bool :=
  rows.any (fun r => r.profileId == pid && r.normalizedUid == normalized)

/-- Embedding of storage._record_event. -/
def recordEvent (st : Store) (uidId : Nat) (eventType : String) : Store :=
  { st with events := st.events ++ [⟨uidId, eventType⟩] }

/-- The row created by the INSERT of storage.add_uids (lines 249-253): a FRESH
recipient with zero attempts. -/
def freshRow (pid now rowId : Nat) (raw normalized : String) : Row :=
  { id := rowId, rawInput := pyStrip raw, normalizedUid := normalized,
    profileId := pid, status := STATUS_FRESH, attempts := 0,
    lastErrorCode := none, lastErrorMsg := none, lastEvidencePath := none,
    firstSeenAt := now, lastUpdatedAt := now, lastStartedAt := none,
    nextAttemptAfter := none, heartbeatAt := none }

/-- The successful INSERT of storage.add_uids plus its QUEUE event. -/
def insertFresh (pid now : Nat) (raw normalized : String) (st : Store) : Store :=
  recordEvent
    { st with
      rows := st.rows ++ [freshRow pid now st.nextId raw normalized]
      nextId := st.nextId + 1 }
    st.nextId "QUEUE"

/-- Embedding of storage.add_uids (storage.py lines 233-261); `now` models the
single datetime.now() captured per call.  Every line is either invalid,
a duplicate (IntegrityError caught, nothing inserted) or added as a FRESH
row with a QUEUE event. -/
def addUids (pid now : Nat) : List String → Store → ImportReport × Store
  | [], st => ({ added := 0, duplicates := 0, invalid := [] }, st)
  | raw :: rest, st =>
    match normalizeUid raw with
    | (none, reason) =>
      let r := addUids pid now rest st
      ({ r.1 with invalid := (pyStrip raw, reason.getD "Invalid") :: r.1.invalid }, r.2)
    | (some normalized, reason) =>
      if normalized = "" then
        let r := addUids pid now rest st
        ({ r.1 with invalid := (pyStrip raw, reason.getD "Invalid") :: r.1.invalid }, r.2)
      else if hasUid st.rows pid normalized then
        let r := addUids pid now rest st
        ({ r.1 with duplicates := r.1.duplicates + 1 }, r.2)
      else
        let r := addUids pid now rest (insertFresh pid now raw normalized st)
        ({ r.1 with added := r.1.added + 1 }, r.2)

/-- Spec-side count, from the wording of claim C6: the number of non-comment,
non-blank input lines (the source does no such filtering; this definition
exists only to compare the code's report against the claim's measure). -/
def specCountedLines (lines : List String) : Nat :=
  (lines.filter (fun l => pyStrip l ≠ "" && !strStartsWith (pyStrip l) "#")).length

-- ---------------------------------------------------------------------
-- storage.reset_stale_in_progress
-- ---------------------------------------------------------------------

/-- The WHERE clause of reset_stale_in_progress (storage.py lines 357-363):
IN_PROGRESS for this profile with a null or stale heartbeat. -/
def staleCondition (pid cutoff : Nat) (r : Row) : Bool :=
  r.profileId == pid && r.status == STATUS_IN_PROGRESS
    && (match r.heartbeatAt with
        | none => true
        | some hb => decide (hb < cutoff))

/-- The UPDATE of reset_stale_in_progress (storage.py lines 371-379). -/
def recoverMut (now : Nat) (r : Row) : Row :=
  { r with
    status := STATUS_FAIL_RETRYABLE
    lastErrorCode := some "ENGINE_CRASH"
    lastErrorMsg := some "Recovered from stale in-progress state"
    lastUpdatedAt := now
    nextAttemptAfter := none
    heartbeatAt := none }

/-- Embedding of storage.reset_stale_in_progress (storage.py lines 352-383);
cutoff = now - stale_after_seconds.  Every matching row is forced back to
FAIL_RETRYABLE with a RECOVERED event; every other row is untouched. -/
def resetStaleInProgress (pid now staleAfterSeconds : Nat) (st : Store) : Store :=
  let cutoff := now - staleAfterSeconds
  let staleIds := (st.rows.filter (staleCondition pid cutoff)).map Row.id
  { st with
    rows := st.rows.map (fun r => if staleCondition pid cutoff r then recoverMut now r else r),
    events := st.events ++ staleIds.map (fun i => ⟨i, "RECOVERED"⟩) }

-- ---------------------------------------------------------------------
-- storage.lease_next_uid
-- ---------------------------------------------------------------------

/-- The WHERE clause of lease_next_uid (storage.py lines 393-414): FRESH, or
FAIL_RETRYABLE whose next_attempt_after is null or has passed. -/
def rowEligible (now pid : Nat) (r : Row) : Bool :=
  r.profileId == pid
    && (r.status == STATUS_FAIL_RETRYABLE || r.status == STATUS_FRESH)
    && (r.status == STATUS_FRESH
        || (match r.nextAttemptAfter with
            | none => true
            | some t => decide (t ≤ now)))

/-- The ORDER BY key of lease_next_uid: retryable before fresh, then ascending
first_seen_at. -/
def leaseOrderKey (r : Row) : Nat × Nat :=
  ((if r.status == STATUS_FAIL_RETRYABLE then 0 else 1), r.firstSeenAt)

/-- Strict lexicographic comparison backing the ORDER BY. -/
def keyLt (a b : Nat × Nat) : Bool :=
  decide (a.1 < b.1) || (a.1 == b.1 && decide (a.2 < b.2))

/-- The LIMIT 1 of the ordered SELECT: the minimum of the eligible set under
keyLt (earliest listed row wins ties). -/
def selectMin : List Row → Option Row
  | [] => none
  | r :: rs =>
    match selectMin rs with
    | none => some r
    | some best => if keyLt (leaseOrderKey best) (leaseOrderKey r) then some best else some r

/-- The UPDATE applied to the selected row (storage.py lines 424-431). -/
def leaseMut (now newAttempts : Nat) (r : Row) : Row :=
  { r with
    status := STATUS_IN_PROGRESS
    attempts := newAttempts
    lastStartedAt := some now
    lastUpdatedAt := now
    heartbeatAt := some now }

/-- Embedding of storage.lease_next_uid (storage.py lines 386-440).  Returns
the selected row as the caller sees it (the Python dict is patched with the
new status, attempts and last_started_at only) together with the updated
store, or none with the store unchanged. -/
def leaseNextUid (pid now : Nat) (st : Store) : Option Row × Store :=
  match selectMin (st.rows.filter (rowEligible now pid)) with
  | none => (none, st)
  | some r =>
    let returned := { r with
      status := STATUS_IN_PROGRESS
      attempts := r.attempts + 1
      lastStartedAt := some now }
    let newRows := st.rows.map
      (fun x => if x.id == r.id then leaseMut now (r.attempts + 1) x else x)
    let st' := recordEvent { st with rows := newRows } r.id "START"
    (some returned, st')

-- ---------------------------------------------------------------------
-- storage.complete_uid and storage.force_retry
-- ---------------------------------------------------------------------

/-- Embedding of storage.complete_uid (storage.py lines 454-485). -/
def completeUid (uidId : Nat) (status : String)
    (errorCode errorMsg evidencePath : Option String)
    (nextAttemptAfter : Option Nat) (now : Nat) (st : Store) : Store :=
  recordEvent
    { st with rows := st.rows.map (fun r =>
        if r.id == uidId then
          { r with
            status := status
            lastErrorCode := errorCode
            lastErrorMsg := errorMsg
            lastEvidencePath := evidencePath
            lastUpdatedAt := now
            nextAttemptAfter := nextAttemptAfter
            heartbeatAt := none }
        else r) }
    uidId "RESULT"

/-- Embedding of storage.force_retry (storage.py lines 520-535). -/
def forceRetry (uidId now : Nat) (st : Store) : Store :=
  recordEvent
    { st with rows := st.rows.map (fun r =>
        if r.id == uidId then
          { r with
            status := STATUS_FAIL_RETRYABLE
            nextAttemptAfter := some now
            lastUpdatedAt := now
            attempts := if r.attempts > 0 then r.attempts - 1 else 0 }
        else r) }
    uidId "RETRY_SCHEDULED"

-- ---------------------------------------------------------------------
-- profile_manager.py: remaining_today
-- ---------------------------------------------------------------------

/-- Embedding of ProfileManager.remaining_today (profile_manager.py lines
124-128); Nat subtraction realizes Python's max(0, daily_limit - used). -/
def remainingToday (dailyLimit : Nat) (c : DailyCounter) : Nat :=
  dailyLimit - (c.sentSuccess + c.sentFail)

-- ---------------------------------------------------------------------
-- fb_worker.py: SendResult and the failure classifier
-- ---------------------------------------------------------------------

/-- Embedding of fb_worker.SendResult. -/
structure SendResult where
  status : String
  errorCode : Option String
  errorMsg : Option String
  evidencePath : Option String
deriving Repr, DecidableEq

/-- The composer-absent vocabulary of fb_worker.py line 156: any of the tokens
"composer", "message input box", "message box" as a substring. -/
def composerMatch (normalized : String) : Bool :=
  strContainsSub normalized "composer" || strContainsSub normalized "message input box"
    || strContainsSub normalized "message box"

/-- The page-load-timeout vocabulary of fb_worker.py line 158. -/
def timeoutMatch (normalized : String) : Bool :=
  strContainsSub normalized "timeout" || strContainsSub normalized "timed out"
    || strContainsSub normalized "load"

/-- The authentication vocabulary of fb_worker.py line 160. -/
def authMatch (normalized : String) : Bool :=
  strContainsSub normalized "login" || strContainsSub normalized "auth"

/-- Embedding of FBWorker._classify_failure (fb_worker.py lines 153-162). -/
def classifyFailure (reason : String) : String × String :=
  let normalized := strLower reason
  if composerMatch normalized then (STATUS_FAIL_PERM, "UI_NOT_FOUND")
  else if timeoutMatch normalized then (STATUS_FAIL_RETRYABLE, "NAV_TIMEOUT")
  else if authMatch normalized then (STATUS_FAIL_RETRYABLE, "AUTH_REQUIRED")
  else (STATUS_FAIL_RETRYABLE, "UNKNOWN")

-- ---------------------------------------------------------------------
-- task_engine.py: the engine state machine
-- ---------------------------------------------------------------------

/-- The engine settings consumed by _handle_result and _process_next_uid. -/
structure RuntimeSettings where
  delayBetweenUidsSec : Nat
  retryMaxAttempts : Nat
  retryBackoffSec : Nat
deriving Repr, DecidableEq

/-- The engine's state fields (task_engine.py lines 31-32): the state string
emitted by _transition and the state_reason attribute alongside it. -/
structure EngineSt where
  state : String
  stateReason : Option String
deriving Repr, DecidableEq

/-- The spec-level PAUSED_LIMIT engine state.  The source represents the
quota-exhausted pause as state "PAUSED" with state_reason "limit"
(task_engine.py lines 112-114), distinguished from a user pause, which
carries state_reason "user" (line 61). -/
def PAUSED_LIMIT : EngineSt := { state := "PAUSED", stateReason := some "limit" }

/-- Python truthiness of `result.error_code or "MAX_ATTEMPTS"` (task_engine.py
line 197): None and the empty string both fall back. -/
def errorCodeOrMaxAttempts (c : Option String) : String :=
  match c with
  | none => "MAX_ATTEMPTS"
  | some s => if s = "" then "MAX_ATTEMPTS" else s

/-- The backoff of task_engine.py line 216:
min(120, retry_backoff_sec * 2 ** (attempts - 1)). -/
def backoffSeconds (retryBackoffSec attempts : Nat) : Nat :=
  min 120 (retryBackoffSec * 2 ^ (attempts - 1))

/-- Embedding of TaskEngine._handle_result (task_engine.py lines 135-235):
returns the store and the current day's counter after the completion policy.
uidRow is the dict returned by lease_next_uid, so uidRow.attempts is the
already-incremented attempt count. -/
def handleResult (settings : RuntimeSettings) (now : Nat) (uidRow : Row)
    (result : SendResult) (st : Store) (c : DailyCounter) : Store × DailyCounter :=
  let attempts := uidRow.attempts
  if result.status = STATUS_SUCCESS then
    (completeUid uidRow.id STATUS_SUCCESS none none result.evidencePath none now st,
     { c with sentSuccess := c.sentSuccess + 1 })
  else if result.status = STATUS_FAIL_PERM then
    (completeUid uidRow.id STATUS_FAIL_PERM result.errorCode result.errorMsg
       result.evidencePath none now st,
     { c with sentFail := c.sentFail + 1 })
  else if attempts ≥ settings.retryMaxAttempts then
    (completeUid uidRow.id STATUS_FAIL_PERM (some (errorCodeOrMaxAttempts result.errorCode))
       result.errorMsg result.evidencePath none now st,
     { c with sentFail := c.sentFail + 1 })
  else
    (completeUid uidRow.id STATUS_FAIL_RETRYABLE result.errorCode result.errorMsg
       result.evidencePath (some (now + backoffSeconds settings.retryBackoffSec attempts)) now st,
     c)

/-- Observable outcome of one _process_next_uid step: engine state, store and
counter afterwards, whether the lease operation ran, the row leased during
the step, and the exception (if any) that propagated out of the step. -/
structure EngineOut where
  engine : EngineSt
  store : Store
  counter : DailyCounter
  leaseCalled : Bool
  leasedRow : Option Row
  raised : Option String
deriving Repr, DecidableEq

/-- Embedding of TaskEngine._process_next_uid (task_engine.py lines 104-133).
`send` is the outcome of worker.send_message_to_uid (line 132): Except.error
models a raised exception.  The source wraps that call in no try/except, so
on Except.error nothing after line 132 runs: the leased row stays
IN_PROGRESS, no completion or counter update happens, and the exception
propagates (raised = some e). -/
def processNextUid (pid : Nat) (settings : RuntimeSettings) (dailyLimit now : Nat)
    (engine : EngineSt) (st : Store) (c : DailyCounter)
    (send : Except String SendResult) : EngineOut :=
  if engine.state ≠ "RUNNING" then
    { engine := engine, store := st, counter := c,
      leaseCalled := false, leasedRow := none, raised := none }
  else
    let remaining := remainingToday dailyLimit c
    if remaining ≤ 0 then
      { engine := { state := "PAUSED", stateReason := some "limit" }, store := st,
        counter := c, leaseCalled := false, leasedRow := none, raised := none }
    else
      match leaseNextUid pid now st with
      | (none, _) =>
        { engine := { state := "IDLE", stateReason := engine.stateReason }, store := st,
          counter := c, leaseCalled := true, leasedRow := none, raised := none }
      | (some uidRow, st1) =>
        match send with
        | .error e =>
          { engine := engine, store := st1, counter := c,
            leaseCalled := true, leasedRow := some uidRow, raised := some e }
        | .ok result =>
          let out := handleResult settings now uidRow result st1 c
          { engine := engine, store := out.1, counter := out.2,
            leaseCalled := true, leasedRow := some uidRow, raised := none }

-- ---------------------------------------------------------------------
-- Demo values used by the witness and counterexample theorems
-- ---------------------------------------------------------------------

/-- A concrete FRESH recipient used in witnesses. -/
def baseRow : Row :=
  { id := 1, rawInput := "100", normalizedUid := "100", profileId := 1,
    status := STATUS_FRESH, attempts := 0, lastErrorCode := none, lastErrorMsg := none,
    lastEvidencePath := none, firstSeenAt := 0, lastUpdatedAt := 0, lastStartedAt := none,
    nextAttemptAfter := none, heartbeatAt := none }

/-- Concrete runtime settings used in witnesses: delay 60s, 3 attempts, 10s base
backoff (the defaults of profile_manager._load_settings). -/
def demoSettings : RuntimeSettings :=
  { delayBetweenUidsSec := 60, retryMaxAttempts := 3, retryBackoffSec := 10 }

/-- baseRow as it looks right after being leased on its second attempt. -/
def retryRow : Row :=
  { baseRow with status := STATUS_IN_PROGRESS, attempts := 2 }

/-- baseRow as it looks right after being leased on its third (= max) attempt. -/
def lastAttemptRow : Row :=
  { baseRow with status := STATUS_IN_PROGRESS, attempts := 3 }

/-- A singleton store holding baseRow. -/
def demoStore : Store :=
  { rows := [baseRow], events := [], nextId := 2 }

/-- A singleton store holding retryRow. -/
def retryStore : Store :=
  { rows := [retryRow], events := [], nextId := 2 }

/-- A singleton store holding lastAttemptRow. -/
def lastAttemptStore : Store :=
  { rows := [lastAttemptRow], events := [], nextId := 2 }

/-- A retryable NAV_TIMEOUT send outcome. -/
def navResult : SendResult :=
  { status := STATUS_FAIL_RETRYABLE, errorCode := some "NAV_TIMEOUT",
    errorMsg := some "slow page", evidencePath := none }

/-- A zeroed daily counter. -/
def zeroCounter : DailyCounter :=
  { sentSuccess := 0, sentFail := 0 }

/-- baseRow as lease_next_uid returns it at time 5 (dict patched with status,
attempts and last_started_at). -/
def leasedBaseRow : Row :=
  { baseRow with status := STATUS_IN_PROGRESS, attempts := 1, lastStartedAt := some 5 }

/-- demoStore after baseRow is leased at time 5. -/
def demoStoreLeased : Store :=
  { rows := [leaseMut 5 1 baseRow], events := [⟨1, "START"⟩], nextId := 2 }

/-- An IN_PROGRESS recipient with no heartbeat, as left behind by a crash. -/
def staleRow : Row :=
  { baseRow with status := STATUS_IN_PROGRESS, attempts := 1, heartbeatAt := none }

/-- A singleton store holding staleRow. -/
def staleStore : Store :=
  { rows := [staleRow], events := [], nextId := 2 }

/-- A recipient already sent successfully. -/
def successRow : Row :=
  { baseRow with status := STATUS_SUCCESS, attempts := 1 }

/-- A singleton store holding successRow. -/
def successStore : Store :=
  { rows := [successRow], events := [], nextId := 2 }

-- ---------------------------------------------------------------------
-- Helper lemmas: the lease ordering
-- ---------------------------------------------------------------------

theorem keyLt_iff (a b : Nat × Nat) :
    keyLt a b = true ↔ a.1 < b.1 ∨ (a.1 = b.1 ∧ a.2 < b.2) := by
  simp [keyLt]

theorem keyLt_false_iff (a b : Nat × Nat) :
    keyLt a b = false ↔ ¬(a.1 < b.1 ∨ (a.1 = b.1 ∧ a.2 < b.2)) := by
  rw [← keyLt_iff]
  cases keyLt a b <;> simp

theorem keyLt_irrefl (a : Nat × Nat) : keyLt a a = false := by
  rw [keyLt_false_iff]; omega

theorem keyLt_asymm {a b : Nat × Nat} (h : keyLt a b = true) : keyLt b a = false := by
  rw [keyLt_iff] at h; rw [keyLt_false_iff]; omega

theorem keyLt_neg_trans {a b c : Nat × Nat} (h1 : keyLt a b = false)
    (h2 : keyLt b c = false) : keyLt a c = false := by
  rw [keyLt_false_iff] at h1 h2 ⊢; omega

theorem selectMin_none_iff (l : List Row) : selectMin l = none ↔ l = [] := by
  cases l with
  | nil => simp [selectMin]
  | cons a rs =>
    constructor
    · intro h
      exfalso
      rw [selectMin] at h
      cases hs : selectMin rs with
      | none =>
        rw [hs] at h
        simp only [] at h
        exact Option.noConfusion h
      | some best =>
        rw [hs] at h
        simp only [] at h
        by_cases hk : keyLt (leaseOrderKey best) (leaseOrderKey a) = true
        · rw [if_pos hk] at h
          exact Option.noConfusion h
        · rw [if_neg hk] at h
          exact Option.noConfusion h
    · intro h
      exact absurd h (List.cons_ne_nil a rs)

theorem selectMin_mem : ∀ (l : List Row) (r : Row), selectMin l = some r → r ∈ l := by
  intro l
  induction l with
  | nil => intro r h; simp [selectMin] at h
  | cons a rs ih =>
    intro r h
    rw [selectMin] at h
    cases hs : selectMin rs with
    | none =>
      rw [hs] at h
      simp only [] at h
      injection h with h
      subst h
      exact List.mem_cons_self a rs
    | some best =>
      rw [hs] at h
      simp only [] at h
      by_cases hk : keyLt (leaseOrderKey best) (leaseOrderKey a) = true
      · rw [if_pos hk] at h
        injection h with h
        subst h
        exact List.mem_cons_of_mem a (ih _ hs)
      · rw [if_neg hk] at h
        injection h with h
        subst h
        exact List.mem_cons_self a rs

theorem selectMin_minimal : ∀ (l : List Row) (r : Row), selectMin l = some r →
    ∀ s ∈ l, keyLt (leaseOrderKey s) (leaseOrderKey r) = false := by
  intro l
  induction l with
  | nil => intro r h; simp [selectMin] at h
  | cons a rs ih =>
    intro r h s hs
    rw [selectMin] at h
    cases hm : selectMin rs with
    | none =>
      rw [hm] at h
      simp only [] at h
      injection h with h
      subst h
      have hrs : rs = [] := (selectMin_none_iff rs).mp hm
      subst hrs
      rcases List.mem_singleton.mp hs with rfl
      exact keyLt_irrefl _
    | some best =>
      rw [hm] at h
      simp only [] at h
      by_cases hk : keyLt (leaseOrderKey best) (leaseOrderKey a) = true
      · rw [if_pos hk] at h
        injection h with h
        subst h
        rcases List.mem_cons.mp hs with rfl | hsmem
        · exact keyLt_asymm hk
        · exact ih _ hm s hsmem
      · rw [if_neg hk] at h
        injection h with h
        subst h
        rcases List.mem_cons.mp hs with rfl | hsmem
        · exact keyLt_irrefl _
        · exact keyLt_neg_trans (ih best hm s hsmem) (Bool.eq_false_iff.mpr hk)

-- ---------------------------------------------------------------------
-- Helper lemmas: eligibility and the lease operation
-- ---------------------------------------------------------------------

theorem rowEligible_iff (now pid : Nat) (r : Row) :
    rowEligible now pid r = true ↔
      r.profileId = pid ∧
        (r.status = STATUS_FRESH ∨
          (r.status = STATUS_FAIL_RETRYABLE ∧
            (r.nextAttemptAfter = none ∨ ∃ t, r.nextAttemptAfter = some t ∧ t ≤ now))) := by
  cases hna : r.nextAttemptAfter with
  | none =>
    simp only [rowEligible, hna, Bool.and_eq_true, Bool.or_eq_true, beq_iff_eq,
      Option.some.injEq, reduceCtorEq, false_and, exists_false, or_false, and_true]
    tauto
  | some t =>
    simp only [rowEligible, hna, Bool.and_eq_true, Bool.or_eq_true, beq_iff_eq,
      decide_eq_true_eq, Option.some.injEq, reduceCtorEq, false_or]
    constructor
    · rintro ⟨⟨h1, h2⟩, h3⟩
      refine ⟨h1, ?_⟩
      rcases h3 with h3 | h3
      · exact Or.inl h3
      · rcases h2 with h2 | h2
        · exact Or.inr ⟨h2, ⟨t, rfl, h3⟩⟩
        · exact Or.inl h2
    · rintro ⟨h1, h2 | ⟨h2, t', ht', hle⟩⟩
      · exact ⟨⟨h1, Or.inr h2⟩, Or.inl h2⟩
      · cases ht'
        exact ⟨⟨h1, Or.inl h2⟩, Or.inr hle⟩

theorem leaseNextUid_none_iff (pid now : Nat) (st : Store) :
    (leaseNextUid pid now st).1 = none ↔ ∀ r ∈ st.rows, rowEligible now pid r = false := by
  unfold leaseNextUid
  cases hm : selectMin (st.rows.filter (rowEligible now pid)) with
  | none =>
    simp only []
    have hfil := (selectMin_none_iff _).mp hm
    constructor
    · intro _ r hr
      by_contra hne
      have htrue : rowEligible now pid r = true := by
        revert hne
        cases rowEligible now pid r <;> simp
      have hmem : r ∈ st.rows.filter (rowEligible now pid) :=
        List.mem_filter.mpr ⟨hr, htrue⟩
      rw [hfil] at hmem
      exact absurd hmem (List.not_mem_nil r)
    · intro _
      trivial
  | some r =>
    simp only []
    constructor
    · intro hcontra
      exact Option.noConfusion hcontra
    · intro hall
      have hrmem := selectMin_mem _ _ hm
      have hsplit := List.mem_filter.mp hrmem
      rw [hall r hsplit.1] at hsplit
      exact absurd hsplit.2 (by simp)

theorem leaseNextUid_some_spec {pid now : Nat} {st : Store} {ret : Row} {st' : Store}
    (h : leaseNextUid pid now st = (some ret, st')) :
    ∃ r ∈ st.rows,
      rowEligible now pid r = true ∧
      (∀ s ∈ st.rows, rowEligible now pid s = true →
        keyLt (leaseOrderKey s) (leaseOrderKey r) = false) ∧
      ret = { r with
        status := STATUS_IN_PROGRESS
        attempts := r.attempts + 1
        lastStartedAt := some now } ∧
      st'.rows = st.rows.map
        (fun x => if x.id == r.id then leaseMut now (r.attempts + 1) x else x) ∧
      st'.events = st.events ++ [⟨r.id, "START"⟩] ∧
      st'.nextId = st.nextId := by
  unfold leaseNextUid at h
  cases hm : selectMin (st.rows.filter (rowEligible now pid)) with
  | none =>
    rw [hm] at h
    simp only [Prod.mk.injEq] at h
    exact Option.noConfusion h.1
  | some r =>
    rw [hm] at h
    simp only [Prod.mk.injEq, Option.some.injEq] at h
    obtain ⟨hret, hst⟩ := h
    have hrmem := selectMin_mem _ _ hm
    have hsplit := List.mem_filter.mp hrmem
    refine ⟨r, hsplit.1, hsplit.2, ?_, ?_, ?_, ?_⟩
    · intro s hs hse
      exact selectMin_minimal _ _ hm s (List.mem_filter.mpr ⟨hs, hse⟩)
    · exact hret.symm
    · rw [← hst]
      simp [recordEvent]
    · constructor
      · rw [← hst]
        simp [recordEvent]
      · rw [← hst]
        simp [recordEvent]

theorem leaseNextUid_isSome_of_eligible {pid now : Nat} {st : Store} {r : Row}
    (hmem : r ∈ st.rows) (helig : rowEligible now pid r = true) :
    (leaseNextUid pid now st).1 ≠ none := by
  intro hnone
  have := (leaseNextUid_none_iff pid now st).mp hnone r hmem
  rw [helig] at this
  exact Bool.noConfusion this

-- ---------------------------------------------------------------------
-- Helper lemmas: the import operation
-- ---------------------------------------------------------------------

theorem addUids_count (pid now : Nat) :
    ∀ (lines : List String) (st : Store),
      (addUids pid now lines st).1.added + (addUids pid now lines st).1.duplicates
        + (addUids pid now lines st).1.invalid.length = lines.length := by
  intro lines
  induction lines with
  | nil =>
    intro st
    simp [addUids]
  | cons raw rest ih =>
    intro st
    simp only [addUids]
    cases hn : normalizeUid raw with
    | mk fst snd =>
      cases fst with
      | none =>
        simp only [List.length_cons]
        have h := ih st
        omega
      | some normalized =>
        simp only []
        by_cases h0 : normalized = ""
        · rw [if_pos h0]
          simp only [List.length_cons]
          have h := ih st
          omega
        · rw [if_neg h0]
          by_cases hdup : hasUid st.rows pid normalized = true
          · rw [if_pos hdup]
            simp only [List.length_cons]
            have h := ih st
            omega
          · rw [if_neg hdup]
            simp only [List.length_cons]
            have h := ih (insertFresh pid now raw normalized st)
            omega

theorem addUids_dup {pid now : Nat} {l k : String}
    (hnorm : (normalizeUid l).1 = some k) (hk : ¬ k = "") {st : Store}
    (hdup : hasUid st.rows pid k = true) :
    addUids pid now [l] st = ({ added := 0, duplicates := 1, invalid := [] }, st) := by
  cases hnl : normalizeUid l with
  | mk fst snd =>
    rw [hnl] at hnorm
    simp only [] at hnorm
    subst hnorm
    simp only [addUids, hnl]
    rw [if_neg hk, if_pos hdup]

theorem addUids_hasUid_after {pid now : Nat} {l k : String}
    (hnorm : (normalizeUid l).1 = some k) (hk : ¬ k = "") (st : Store) :
    hasUid ((addUids pid now [l] st).2).rows pid k = true := by
  cases hnl : normalizeUid l with
  | mk fst snd =>
    rw [hnl] at hnorm
    simp only [] at hnorm
    subst hnorm
    simp only [addUids, hnl]
    rw [if_neg hk]
    by_cases hdup : hasUid st.rows pid k = true
    · rw [if_pos hdup]
      simpa [addUids] using hdup
    · rw [if_neg hdup]
      simp only [addUids]
      simp [insertFresh, recordEvent, hasUid, freshRow]

-- ---------------------------------------------------------------------
-- Helper lemmas: completion, force-retry, terminality
-- ---------------------------------------------------------------------

theorem completeUid_mem (uidId : Nat) (status : String)
    (errorCode errorMsg evidencePath : Option String) (naa : Option Nat) (now : Nat)
    (st : Store) (r : Row) (hr : r ∈ st.rows) (hid : r.id = uidId) :
    ∃ r' ∈ (completeUid uidId status errorCode errorMsg evidencePath naa now st).rows,
      r'.id = r.id ∧ r'.status = status ∧ r'.lastErrorCode = errorCode ∧
      r'.lastErrorMsg = errorMsg ∧ r'.lastEvidencePath = evidencePath ∧
      r'.nextAttemptAfter = naa ∧ r'.heartbeatAt = none ∧ r'.attempts = r.attempts := by
  unfold completeUid recordEvent
  simp only []
  refine ⟨_, List.mem_map_of_mem _ hr, ?_⟩
  rw [show (r.id == uidId) = true from beq_iff_eq.mpr hid]
  simp

theorem completeUid_unchanged (uidId : Nat) (status : String)
    (errorCode errorMsg evidencePath : Option String) (naa : Option Nat) (now : Nat)
    (st : Store) (r : Row) (hr : r ∈ st.rows) (hid : r.id ≠ uidId) :
    r ∈ (completeUid uidId status errorCode errorMsg evidencePath naa now st).rows := by
  unfold completeUid recordEvent
  simp only [List.mem_map]
  refine ⟨r, hr, ?_⟩
  rw [if_neg (by simp [hid])]

theorem forceRetry_mem (uidId now : Nat) (st : Store) (r : Row)
    (hr : r ∈ st.rows) (hid : r.id = uidId) :
    ∃ r' ∈ (forceRetry uidId now st).rows,
      r'.id = r.id ∧ r'.status = STATUS_FAIL_RETRYABLE ∧
      r'.nextAttemptAfter = some now ∧ r'.profileId = r.profileId ∧
      r'.attempts = (if r.attempts > 0 then r.attempts - 1 else 0) := by
  unfold forceRetry recordEvent
  simp only []
  refine ⟨_, List.mem_map_of_mem _ hr, ?_⟩
  rw [show (r.id == uidId) = true from beq_iff_eq.mpr hid]
  simp

theorem rowEligible_false_of_fail_perm (now pid : Nat) (r : Row)
    (h : r.status = STATUS_FAIL_PERM) : rowEligible now pid r = false := by
  unfold rowEligible
  rw [h]
  simp [STATUS_FAIL_PERM, STATUS_FAIL_RETRYABLE, STATUS_FRESH]

theorem leaseNextUid_ret_id {pid now : Nat} {st : Store} {ret : Row} {st' : Store}
    {r' : Row}
    (hn : (st.rows.map Row.id).Nodup) (hmem : r' ∈ st.rows)
    (hinelig : rowEligible now pid r' = false)
    (h : leaseNextUid pid now st = (some ret, st')) : ret.id ≠ r'.id := by
  obtain ⟨r, hrmem, helig, _, hret, _⟩ := leaseNextUid_some_spec h
  intro hid
  have hrid : r.id = r'.id := by
    rw [hret] at hid
    exact hid
  have : r = r' := List.inj_on_of_nodup_map hn hrmem hmem hrid
  rw [this, hinelig] at helig
  exact Bool.noConfusion helig

-- ---------------------------------------------------------------------
-- Claims
-- ---------------------------------------------------------------------

/-- C9: the failure classifier is a total deterministic function on non-empty
reason strings: a composer-absent reason maps to (FAIL_PERM, UI_NOT_FOUND);
otherwise a page-load-timeout reason to (FAIL_RETRYABLE, NAV_TIMEOUT);
otherwise an authentication reason to (FAIL_RETRYABLE, AUTH_REQUIRED); and any
other reason to (FAIL_RETRYABLE, UNKNOWN); every reason yields exactly one of
these four pairs. -/
theorem c9_classifier_total (reason : String) (h : reason ≠ "") :
    (composerMatch (strLower reason) = true →
      classifyFailure reason = (STATUS_FAIL_PERM, "UI_NOT_FOUND")) ∧
    (composerMatch (strLower reason) = false → timeoutMatch (strLower reason) = true →
      classifyFailure reason = (STATUS_FAIL_RETRYABLE, "NAV_TIMEOUT")) ∧
    (composerMatch (strLower reason) = false → timeoutMatch (strLower reason) = false →
      authMatch (strLower reason) = true →
      classifyFailure reason = (STATUS_FAIL_RETRYABLE, "AUTH_REQUIRED")) ∧
    (composerMatch (strLower reason) = false → timeoutMatch (strLower reason) = false →
      authMatch (strLower reason) = false →
      classifyFailure reason = (STATUS_FAIL_RETRYABLE, "UNKNOWN")) ∧
    (classifyFailure reason = (STATUS_FAIL_PERM, "UI_NOT_FOUND") ∨
      classifyFailure reason = (STATUS_FAIL_RETRYABLE, "NAV_TIMEOUT") ∨
      classifyFailure reason = (STATUS_FAIL_RETRYABLE, "AUTH_REQUIRED") ∨
      classifyFailure reason = (STATUS_FAIL_RETRYABLE, "UNKNOWN")) := by
  unfold classifyFailure
  by_cases hc : composerMatch (strLower reason) = true
  · simp [hc]
  · have hc' : composerMatch (strLower reason) = false := Bool.eq_false_iff.mpr hc
    by_cases ht : timeoutMatch (strLower reason) = true
    · simp [hc', ht]
    · have ht' : timeoutMatch (strLower reason) = false := Bool.eq_false_iff.mpr ht
      by_cases ha : authMatch (strLower reason) = true
      · simp [hc', ht', ha]
      · have ha' : authMatch (strLower reason) = false := Bool.eq_false_iff.mpr ha
        simp [hc', ht', ha']

/-- Witness for C9 at the concrete reason "mysterious error 7". -/
theorem c9_classifier_total_witness :
    ("mysterious error 7" : String) ≠ "" ∧
    ((composerMatch (strLower "mysterious error 7") = true →
      classifyFailure "mysterious error 7" = (STATUS_FAIL_PERM, "UI_NOT_FOUND")) ∧
    (composerMatch (strLower "mysterious error 7") = false →
      timeoutMatch (strLower "mysterious error 7") = true →
      classifyFailure "mysterious error 7" = (STATUS_FAIL_RETRYABLE, "NAV_TIMEOUT")) ∧
    (composerMatch (strLower "mysterious error 7") = false →
      timeoutMatch (strLower "mysterious error 7") = false →
      authMatch (strLower "mysterious error 7") = true →
      classifyFailure "mysterious error 7" = (STATUS_FAIL_RETRYABLE, "AUTH_REQUIRED")) ∧
    (composerMatch (strLower "mysterious error 7") = false →
      timeoutMatch (strLower "mysterious error 7") = false →
      authMatch (strLower "mysterious error 7") = false →
      classifyFailure "mysterious error 7" = (STATUS_FAIL_RETRYABLE, "UNKNOWN")) ∧
    (classifyFailure "mysterious error 7" = (STATUS_FAIL_PERM, "UI_NOT_FOUND") ∨
      classifyFailure "mysterious error 7" = (STATUS_FAIL_RETRYABLE, "NAV_TIMEOUT") ∨
      classifyFailure "mysterious error 7" = (STATUS_FAIL_RETRYABLE, "AUTH_REQUIRED") ∨
      classifyFailure "mysterious error 7" = (STATUS_FAIL_RETRYABLE, "UNKNOWN"))) :=
  ⟨by decide, c9_classifier_total "mysterious error 7" (by decide)⟩

/-- C3: at a loop iteration boundary with the engine RUNNING, a remaining
daily quota of 0 sends the engine to the PAUSED_LIMIT state (state "PAUSED"
with state_reason "limit") without calling the lease operation: the store,
the counter and every recipient are untouched, even if eligible FRESH
recipients exist. -/
theorem c3_quota_zero_pauses (pid : Nat) (settings : RuntimeSettings)
    (dailyLimit now : Nat) (engine : EngineSt) (st : Store) (c : DailyCounter)
    (send : Except String SendResult)
    (hrun : engine.state = "RUNNING") (hq : remainingToday dailyLimit c = 0) :
    processNextUid pid settings dailyLimit now engine st c send =
      { engine := PAUSED_LIMIT, store := st, counter := c,
        leaseCalled := false, leasedRow := none, raised := none } := by
  unfold processNextUid
  rw [if_neg (by simp [hrun])]
  simp only [hq]
  rfl

/-- Witness for C3: daily_limit 2 consumed by 1 success and 1 failure pauses
the engine without leasing, although an eligible FRESH recipient exists. -/
theorem c3_quota_zero_pauses_witness :
    (EngineSt.mk "RUNNING" none).state = "RUNNING" ∧
    remainingToday 2 { sentSuccess := 1, sentFail := 1 } = 0 ∧
    rowEligible 5 1 baseRow = true ∧
    processNextUid 1 demoSettings 2 5 (EngineSt.mk "RUNNING" none)
        { rows := [baseRow], events := [], nextId := 2 }
        { sentSuccess := 1, sentFail := 1 } (Except.ok ⟨STATUS_SUCCESS, none, none, none⟩) =
      { engine := PAUSED_LIMIT, store := { rows := [baseRow], events := [], nextId := 2 },
        counter := { sentSuccess := 1, sentFail := 1 },
        leaseCalled := false, leasedRow := none, raised := none } :=
  ⟨rfl, by decide, by decide,
    c3_quota_zero_pauses 1 demoSettings 2 5 (EngineSt.mk "RUNNING" none)
      { rows := [baseRow], events := [], nextId := 2 }
      { sentSuccess := 1, sentFail := 1 } (Except.ok ⟨STATUS_SUCCESS, none, none, none⟩)
      rfl (by decide)⟩

/-- C7: remaining quota is max(0, daily_limit - (sent_success + sent_fail));
completing SUCCESS adds exactly one success, completing FAIL_PERM or a
retryable failure with exhausted attempts adds exactly one failure, and a
non-terminal retryable failure changes neither counter. -/
theorem c7_quota_counters (settings : RuntimeSettings) (now : Nat) (uidRow : Row)
    (result : SendResult) (st : Store) (c : DailyCounter) (dailyLimit : Nat)
    (h : result.status = STATUS_SUCCESS ∨ result.status = STATUS_FAIL_PERM ∨
      result.status = STATUS_FAIL_RETRYABLE) :
    ((remainingToday dailyLimit c : Int) =
      max 0 ((dailyLimit : Int) - ((c.sentSuccess : Int) + (c.sentFail : Int)))) ∧
    (result.status = STATUS_SUCCESS →
      (handleResult settings now uidRow result st c).2 =
        { sentSuccess := c.sentSuccess + 1, sentFail := c.sentFail }) ∧
    (result.status = STATUS_FAIL_PERM →
      (handleResult settings now uidRow result st c).2 =
        { sentSuccess := c.sentSuccess, sentFail := c.sentFail + 1 }) ∧
    (result.status = STATUS_FAIL_RETRYABLE →
      settings.retryMaxAttempts ≤ uidRow.attempts →
      (handleResult settings now uidRow result st c).2 =
        { sentSuccess := c.sentSuccess, sentFail := c.sentFail + 1 }) ∧
    (result.status = STATUS_FAIL_RETRYABLE →
      uidRow.attempts < settings.retryMaxAttempts →
      (handleResult settings now uidRow result st c).2 = c) := by
  refine ⟨?_, ?_, ?_, ?_, ?_⟩
  · unfold remainingToday
    omega
  · intro hs
    simp [handleResult, hs, STATUS_SUCCESS]
  · intro hs
    simp [handleResult, hs, STATUS_FAIL_PERM, STATUS_SUCCESS]
  · intro hs hge
    unfold handleResult
    rw [if_neg (by simp [hs, STATUS_FAIL_RETRYABLE, STATUS_SUCCESS]),
      if_neg (by simp [hs, STATUS_FAIL_RETRYABLE, STATUS_FAIL_PERM]),
      if_pos hge]
  · intro hs hlt
    unfold handleResult
    rw [if_neg (by simp [hs, STATUS_FAIL_RETRYABLE, STATUS_SUCCESS]),
      if_neg (by simp [hs, STATUS_FAIL_RETRYABLE, STATUS_FAIL_PERM]),
      if_neg (by omega)]

/-- Witness for C7 at a SUCCESS completion with counters (2, 1) and limit 10:
remaining is 7 and the success counter advances to 3. -/
theorem c7_quota_counters_witness :
    ((SendResult.mk STATUS_SUCCESS none none none).status = STATUS_SUCCESS ∨
      (SendResult.mk STATUS_SUCCESS none none none).status = STATUS_FAIL_PERM ∨
      (SendResult.mk STATUS_SUCCESS none none none).status = STATUS_FAIL_RETRYABLE) ∧
    remainingToday 10 { sentSuccess := 2, sentFail := 1 } = 7 ∧
    (handleResult demoSettings 7 baseRow (SendResult.mk STATUS_SUCCESS none none none)
        { rows := [baseRow], events := [], nextId := 2 }
        { sentSuccess := 2, sentFail := 1 }).2 =
      { sentSuccess := 3, sentFail := 1 } :=
  ⟨Or.inl rfl, by decide,
    (c7_quota_counters demoSettings 7 baseRow (SendResult.mk STATUS_SUCCESS none none none)
      { rows := [baseRow], events := [], nextId := 2 }
      { sentSuccess := 2, sentFail := 1 } 10 (Or.inl rfl)).2.1 rfl⟩

/-- C8: a retryable failure with attempts below retry_max_attempts keeps the
recipient FAIL_RETRYABLE, schedules next_attempt_after at
now + min(120, base_backoff * 2 ^ (attempts - 1)), changes no daily counter,
and the backoff is non-decreasing in attempts and bounded by the 120s cap. -/
theorem c8_backoff_schedule (settings : RuntimeSettings) (now : Nat) (uidRow : Row)
    (result : SendResult) (st : Store) (c : DailyCounter)
    (hs : result.status = STATUS_FAIL_RETRYABLE)
    (hlt : uidRow.attempts < settings.retryMaxAttempts)
    (h1 : 1 ≤ uidRow.attempts) :
    (∀ r ∈ st.rows, r.id = uidRow.id →
      ∃ r' ∈ (handleResult settings now uidRow result st c).1.rows,
        r'.id = r.id ∧ r'.status = STATUS_FAIL_RETRYABLE ∧
        r'.nextAttemptAfter =
          some (now + min 120 (settings.retryBackoffSec * 2 ^ (uidRow.attempts - 1)))) ∧
    (handleResult settings now uidRow result st c).2 = c ∧
    (∀ a b : Nat, a ≤ b →
      backoffSeconds settings.retryBackoffSec a ≤ backoffSeconds settings.retryBackoffSec b) ∧
    (∀ a : Nat, backoffSeconds settings.retryBackoffSec a ≤ 120) := by
  have hred : handleResult settings now uidRow result st c =
      (completeUid uidRow.id STATUS_FAIL_RETRYABLE result.errorCode result.errorMsg
        result.evidencePath
        (some (now + backoffSeconds settings.retryBackoffSec uidRow.attempts)) now st, c) := by
    unfold handleResult
    rw [if_neg (by simp [hs, STATUS_FAIL_RETRYABLE, STATUS_SUCCESS]),
      if_neg (by simp [hs, STATUS_FAIL_RETRYABLE, STATUS_FAIL_PERM]),
      if_neg (by omega)]
  refine ⟨?_, ?_, ?_, ?_⟩
  · intro r hr hid
    rw [hred]
    obtain ⟨r', hmem, hprops⟩ := completeUid_mem uidRow.id STATUS_FAIL_RETRYABLE
      result.errorCode result.errorMsg result.evidencePath
      (some (now + backoffSeconds settings.retryBackoffSec uidRow.attempts)) now st r hr hid
    exact ⟨r', hmem, hprops.1, hprops.2.1, hprops.2.2.2.2.2.1⟩
  · rw [hred]
  · intro a b hab
    unfold backoffSeconds
    have hpow : 2 ^ (a - 1) ≤ 2 ^ (b - 1) :=
      Nat.pow_le_pow_right (by omega) (by omega)
    have hmul : settings.retryBackoffSec * 2 ^ (a - 1) ≤
        settings.retryBackoffSec * 2 ^ (b - 1) :=
      Nat.mul_le_mul_left _ hpow
    omega
  · intro a
    unfold backoffSeconds
    omega


/-- Witness for C8: a NAV_TIMEOUT retryable failure at attempt 2 of 3 with 10s
base backoff schedules the retry at now + 20. -/
theorem c8_backoff_schedule_witness :
    navResult.status = STATUS_FAIL_RETRYABLE ∧
    retryRow.attempts < demoSettings.retryMaxAttempts ∧
    1 ≤ retryRow.attempts ∧
    ((∀ r ∈ retryStore.rows, r.id = retryRow.id →
      ∃ r' ∈ (handleResult demoSettings 100 retryRow navResult retryStore zeroCounter).1.rows,
        r'.id = r.id ∧ r'.status = STATUS_FAIL_RETRYABLE ∧
        r'.nextAttemptAfter =
          some (100 + min 120 (demoSettings.retryBackoffSec * 2 ^ (retryRow.attempts - 1)))) ∧
    (handleResult demoSettings 100 retryRow navResult retryStore zeroCounter).2 = zeroCounter ∧
    (∀ a b : Nat, a ≤ b →
      backoffSeconds demoSettings.retryBackoffSec a ≤
        backoffSeconds demoSettings.retryBackoffSec b) ∧
    (∀ a : Nat, backoffSeconds demoSettings.retryBackoffSec a ≤ 120)) :=
  ⟨rfl, by decide, by decide,
    c8_backoff_schedule demoSettings 100 retryRow navResult retryStore zeroCounter
      rfl (by decide) (by decide)⟩

/-- C2 counterexample: a NAV_TIMEOUT retryable failure on the third of three
allowed attempts escalates to FAIL_PERM, but last_error_code stays
"NAV_TIMEOUT" (task_engine.py line 197 keeps the result's code and only falls
back to "MAX_ATTEMPTS" when it is missing), contradicting the claim that
last_error_code = MAX_ATTEMPTS on every escalation. -/
theorem c2_retry_exhaustion_cex :
    (handleResult demoSettings 100 lastAttemptRow navResult lastAttemptStore
        zeroCounter).1.rows.map Row.status = [STATUS_FAIL_PERM] ∧
    (handleResult demoSettings 100 lastAttemptRow navResult lastAttemptStore
        zeroCounter).1.rows.map Row.lastErrorCode = [some "NAV_TIMEOUT"] ∧
    (some "NAV_TIMEOUT" : Option String) ≠ some "MAX_ATTEMPTS" := by
  refine ⟨by decide, by decide, by decide⟩

/-- C2 amended: a retryable failure with attempts ≥ retry_max_attempts
escalates the recipient to FAIL_PERM with last_error_code equal to the
result's error code when that code is present and non-empty, and
"MAX_ATTEMPTS" otherwise; the daily failure counter gains exactly one; the
escalated recipient is never eligible again and never leased again. -/
theorem c2_retry_exhaustion_escalates (settings : RuntimeSettings) (now : Nat)
    (uidRow : Row) (result : SendResult) (st : Store) (c : DailyCounter)
    (hs : result.status = STATUS_FAIL_RETRYABLE)
    (hge : settings.retryMaxAttempts ≤ uidRow.attempts) :
    (∀ r ∈ st.rows, r.id = uidRow.id →
      ∃ r' ∈ (handleResult settings now uidRow result st c).1.rows,
        r'.id = r.id ∧ r'.status = STATUS_FAIL_PERM ∧
        r'.lastErrorCode = some (errorCodeOrMaxAttempts result.errorCode) ∧
        (∀ now2 pid2 : Nat, rowEligible now2 pid2 r' = false) ∧
        (∀ (pid2 now2 : Nat) (st2 : Store) (ret : Row) (stx : Store),
          (st2.rows.map Row.id).Nodup → r' ∈ st2.rows →
          leaseNextUid pid2 now2 st2 = (some ret, stx) → ret.id ≠ r'.id)) ∧
    (handleResult settings now uidRow result st c).2 =
      { sentSuccess := c.sentSuccess, sentFail := c.sentFail + 1 } := by
  have hred : handleResult settings now uidRow result st c =
      (completeUid uidRow.id STATUS_FAIL_PERM
        (some (errorCodeOrMaxAttempts result.errorCode)) result.errorMsg
        result.evidencePath none now st,
       { c with sentFail := c.sentFail + 1 }) := by
    unfold handleResult
    rw [if_neg (by simp [hs, STATUS_FAIL_RETRYABLE, STATUS_SUCCESS]),
      if_neg (by simp [hs, STATUS_FAIL_RETRYABLE, STATUS_FAIL_PERM]),
      if_pos hge]
  refine ⟨?_, by rw [hred]⟩
  intro r hr hid
  rw [hred]
  obtain ⟨r', hmem, hprops⟩ := completeUid_mem uidRow.id STATUS_FAIL_PERM
    (some (errorCodeOrMaxAttempts result.errorCode)) result.errorMsg
    result.evidencePath none now st r hr hid
  have hstat : r'.status = STATUS_FAIL_PERM := hprops.2.1
  have hinelig : ∀ now2 pid2 : Nat, rowEligible now2 pid2 r' = false := fun now2 pid2 =>
    rowEligible_false_of_fail_perm now2 pid2 r' hstat
  refine ⟨r', hmem, hprops.1, hstat, hprops.2.2.1, hinelig, ?_⟩
  intro pid2 now2 st2 ret stx hn hmem2 hlease
  exact leaseNextUid_ret_id hn hmem2 (hinelig now2 pid2) hlease

/-- Witness for C2 at the concrete exhausted NAV_TIMEOUT failure. -/
theorem c2_retry_exhaustion_escalates_witness :
    navResult.status = STATUS_FAIL_RETRYABLE ∧
    demoSettings.retryMaxAttempts ≤ lastAttemptRow.attempts ∧
    ((∀ r ∈ lastAttemptStore.rows, r.id = lastAttemptRow.id →
      ∃ r' ∈ (handleResult demoSettings 100 lastAttemptRow navResult lastAttemptStore
          zeroCounter).1.rows,
        r'.id = r.id ∧ r'.status = STATUS_FAIL_PERM ∧
        r'.lastErrorCode = some (errorCodeOrMaxAttempts navResult.errorCode) ∧
        (∀ now2 pid2 : Nat, rowEligible now2 pid2 r' = false) ∧
        (∀ (pid2 now2 : Nat) (st2 : Store) (ret : Row) (stx : Store),
          (st2.rows.map Row.id).Nodup → r' ∈ st2.rows →
          leaseNextUid pid2 now2 st2 = (some ret, stx) → ret.id ≠ r'.id)) ∧
    (handleResult demoSettings 100 lastAttemptRow navResult lastAttemptStore
        zeroCounter).2 =
      { sentSuccess := zeroCounter.sentSuccess, sentFail := zeroCounter.sentFail + 1 }) :=
  ⟨rfl, by decide,
    c2_retry_exhaustion_escalates demoSettings 100 lastAttemptRow navResult
      lastAttemptStore zeroCounter rfl (by decide)⟩

/-- C4: lease_next_uid selects, among the profile's recipients that are FRESH
or FAIL_RETRYABLE with null or passed next_attempt_after, a minimal one under
the retryable-before-fresh then ascending first_seen_at order; it marks the
stored row IN_PROGRESS with attempts incremented by one and last_started_at
and heartbeat_at set to now, appends a START event, never selects a SUCCESS
or FAIL_PERM recipient, and returns none exactly when no eligible recipient
exists. -/
theorem c4_lease_next_spec (pid now : Nat) (st : Store) (ret : Row) (st' : Store)
    (h : leaseNextUid pid now st = (some ret, st')) :
    (∃ r ∈ st.rows,
      r.profileId = pid ∧
      (r.status = STATUS_FRESH ∨
        (r.status = STATUS_FAIL_RETRYABLE ∧
          (r.nextAttemptAfter = none ∨ ∃ t, r.nextAttemptAfter = some t ∧ t ≤ now))) ∧
      r.status ≠ STATUS_SUCCESS ∧ r.status ≠ STATUS_FAIL_PERM ∧
      (∀ s ∈ st.rows, s.profileId = pid →
        (s.status = STATUS_FRESH ∨
          (s.status = STATUS_FAIL_RETRYABLE ∧
            (s.nextAttemptAfter = none ∨ ∃ t, s.nextAttemptAfter = some t ∧ t ≤ now))) →
        keyLt (leaseOrderKey s) (leaseOrderKey r) = false) ∧
      ret = { r with
        status := STATUS_IN_PROGRESS
        attempts := r.attempts + 1
        lastStartedAt := some now } ∧
      (∃ r' ∈ st'.rows, r'.id = r.id ∧ r'.status = STATUS_IN_PROGRESS ∧
        r'.attempts = r.attempts + 1 ∧ r'.lastStartedAt = some now ∧
        r'.heartbeatAt = some now) ∧
      st'.events = st.events ++ [⟨r.id, "START"⟩]) ∧
    (∀ st2 : Store,
      (∀ r ∈ st2.rows, r.profileId = pid →
        ¬(r.status = STATUS_FRESH ∨
          (r.status = STATUS_FAIL_RETRYABLE ∧
            (r.nextAttemptAfter = none ∨ ∃ t, r.nextAttemptAfter = some t ∧ t ≤ now)))) →
      (leaseNextUid pid now st2).1 = none) := by
  obtain ⟨r, hrmem, helig, hmin, hret, hrows, hevents, _⟩ := leaseNextUid_some_spec h
  obtain ⟨hpid, hshape⟩ := (rowEligible_iff now pid r).mp helig
  constructor
  · have hfr : (fun x : Row =>
        if x.id == r.id then leaseMut now (r.attempts + 1) x else x) r =
        leaseMut now (r.attempts + 1) r := by
      simp
    refine ⟨r, hrmem, hpid, hshape, ?_, ?_, ?_, hret, ?_, hevents⟩
    · rcases hshape with hfresh | ⟨hretry, _⟩
      · rw [hfresh]
        simp [STATUS_FRESH, STATUS_SUCCESS]
      · rw [hretry]
        simp [STATUS_FAIL_RETRYABLE, STATUS_SUCCESS]
    · rcases hshape with hfresh | ⟨hretry, _⟩
      · rw [hfresh]
        simp [STATUS_FRESH, STATUS_FAIL_PERM]
      · rw [hretry]
        simp [STATUS_FAIL_RETRYABLE, STATUS_FAIL_PERM]
    · intro s hs hspid hsshape
      exact hmin s hs ((rowEligible_iff now pid s).mpr ⟨hspid, hsshape⟩)
    · refine ⟨leaseMut now (r.attempts + 1) r, ?_, ?_⟩
      · rw [hrows, ← hfr]
        exact List.mem_map_of_mem _ hrmem
      · simp [leaseMut]
  · intro st2 hall
    apply (leaseNextUid_none_iff pid now st2).mpr
    intro r2 hr2
    by_contra hne
    have htrue : rowEligible now pid r2 = true := by
      revert hne
      cases rowEligible now pid r2 <;> simp
    obtain ⟨hp, hshape2⟩ := (rowEligible_iff now pid r2).mp htrue
    exact hall r2 hr2 hp hshape2

/-- Witness for C4: leasing from the singleton FRESH store at time 5. -/
theorem c4_lease_next_spec_witness :
    leaseNextUid 1 5 demoStore = (some leasedBaseRow, demoStoreLeased) ∧
    ((∃ r ∈ demoStore.rows,
      r.profileId = 1 ∧
      (r.status = STATUS_FRESH ∨
        (r.status = STATUS_FAIL_RETRYABLE ∧
          (r.nextAttemptAfter = none ∨ ∃ t, r.nextAttemptAfter = some t ∧ t ≤ 5))) ∧
      r.status ≠ STATUS_SUCCESS ∧ r.status ≠ STATUS_FAIL_PERM ∧
      (∀ s ∈ demoStore.rows, s.profileId = 1 →
        (s.status = STATUS_FRESH ∨
          (s.status = STATUS_FAIL_RETRYABLE ∧
            (s.nextAttemptAfter = none ∨ ∃ t, s.nextAttemptAfter = some t ∧ t ≤ 5))) →
        keyLt (leaseOrderKey s) (leaseOrderKey r) = false) ∧
      leasedBaseRow = { r with
        status := STATUS_IN_PROGRESS
        attempts := r.attempts + 1
        lastStartedAt := some 5 } ∧
      (∃ r' ∈ demoStoreLeased.rows, r'.id = r.id ∧ r'.status = STATUS_IN_PROGRESS ∧
        r'.attempts = r.attempts + 1 ∧ r'.lastStartedAt = some 5 ∧
        r'.heartbeatAt = some 5) ∧
      demoStoreLeased.events = demoStore.events ++ [⟨r.id, "START"⟩]) ∧
    (∀ st2 : Store,
      (∀ r ∈ st2.rows, r.profileId = 1 →
        ¬(r.status = STATUS_FRESH ∨
          (r.status = STATUS_FAIL_RETRYABLE ∧
            (r.nextAttemptAfter = none ∨ ∃ t, r.nextAttemptAfter = some t ∧ t ≤ 5)))) →
      (leaseNextUid 1 5 st2).1 = none)) :=
  ⟨by decide, c4_lease_next_spec 1 5 demoStore leasedBaseRow demoStoreLeased (by decide)⟩

/-- The WHERE clause of reset_stale_in_progress, in propositional form. -/
theorem staleCondition_iff (pid cutoff : Nat) (r : Row) :
    staleCondition pid cutoff r = true ↔
      r.profileId = pid ∧ r.status = STATUS_IN_PROGRESS ∧
        (r.heartbeatAt = none ∨ ∃ hb, r.heartbeatAt = some hb ∧ hb < cutoff) := by
  cases hhb : r.heartbeatAt with
  | none =>
    simp [staleCondition, hhb, and_assoc]
  | some hb =>
    simp [staleCondition, hhb, and_assoc]

/-- C5: stale recovery forces every IN_PROGRESS recipient of the profile with
a null or stale heartbeat back to FAIL_RETRYABLE with last_error_code
ENGINE_CRASH and next_attempt_after cleared, appends a RECOVERED event, and
leaves the recipient eligible for leasing at any time; every other recipient
is unchanged. -/
theorem c5_recover_stale (pid now staleAfter : Nat) (st : Store) (r : Row)
    (hmem : r ∈ st.rows) (hpid : r.profileId = pid)
    (hip : r.status = STATUS_IN_PROGRESS)
    (hstale : r.heartbeatAt = none ∨
      ∃ hb, r.heartbeatAt = some hb ∧ hb < now - staleAfter) :
    (∃ r' ∈ (resetStaleInProgress pid now staleAfter st).rows,
      r'.id = r.id ∧ r'.status = STATUS_FAIL_RETRYABLE ∧
      r'.lastErrorCode = some "ENGINE_CRASH" ∧ r'.nextAttemptAfter = none ∧
      (∀ now2 : Nat, rowEligible now2 pid r' = true)) ∧
    (⟨r.id, "RECOVERED"⟩ : UidEvent) ∈ (resetStaleInProgress pid now staleAfter st).events ∧
    (∀ s ∈ st.rows,
      ¬(s.profileId = pid ∧ s.status = STATUS_IN_PROGRESS ∧
        (s.heartbeatAt = none ∨ ∃ hb, s.heartbeatAt = some hb ∧ hb < now - staleAfter)) →
      s ∈ (resetStaleInProgress pid now staleAfter st).rows) := by
  have hcond : staleCondition pid (now - staleAfter) r = true :=
    (staleCondition_iff pid (now - staleAfter) r).mpr ⟨hpid, hip, hstale⟩
  refine ⟨?_, ?_, ?_⟩
  · refine ⟨recoverMut now r, ?_, ?_⟩
    · unfold resetStaleInProgress
      simp only [List.mem_map]
      exact ⟨r, hmem, by rw [if_pos hcond]⟩
    · refine ⟨rfl, rfl, rfl, rfl, ?_⟩
      intro now2
      apply (rowEligible_iff now2 pid (recoverMut now r)).mpr
      refine ⟨hpid, Or.inr ⟨rfl, Or.inl rfl⟩⟩
  · unfold resetStaleInProgress
    refine List.mem_append_right _ ?_
    exact List.mem_map_of_mem _
      (List.mem_map_of_mem Row.id (List.mem_filter.mpr ⟨hmem, hcond⟩))
  · intro s hs hns
    have hcs : staleCondition pid (now - staleAfter) s = false := by
      by_contra hne
      have : staleCondition pid (now - staleAfter) s = true := by
        revert hne
        cases staleCondition pid (now - staleAfter) s <;> simp
      exact hns ((staleCondition_iff pid (now - staleAfter) s).mp this)
    unfold resetStaleInProgress
    simp only [List.mem_map]
    exact ⟨s, hs, by rw [if_neg (by simp [hcs])]⟩

/-- Witness for C5: a crashed IN_PROGRESS recipient with no heartbeat is
recovered at time 400 with a 300s staleness window. -/
theorem c5_recover_stale_witness :
    staleRow ∈ staleStore.rows ∧ staleRow.profileId = 1 ∧
    staleRow.status = STATUS_IN_PROGRESS ∧
    (staleRow.heartbeatAt = none ∨
      ∃ hb, staleRow.heartbeatAt = some hb ∧ hb < 400 - 300) ∧
    ((∃ r' ∈ (resetStaleInProgress 1 400 300 staleStore).rows,
      r'.id = staleRow.id ∧ r'.status = STATUS_FAIL_RETRYABLE ∧
      r'.lastErrorCode = some "ENGINE_CRASH" ∧ r'.nextAttemptAfter = none ∧
      (∀ now2 : Nat, rowEligible now2 1 r' = true)) ∧
    (⟨staleRow.id, "RECOVERED"⟩ : UidEvent) ∈ (resetStaleInProgress 1 400 300 staleStore).events ∧
    (∀ s ∈ staleStore.rows,
      ¬(s.profileId = 1 ∧ s.status = STATUS_IN_PROGRESS ∧
        (s.heartbeatAt = none ∨ ∃ hb, s.heartbeatAt = some hb ∧ hb < 400 - 300)) →
      s ∈ (resetStaleInProgress 1 400 300 staleStore).rows)) :=
  ⟨by decide, rfl, rfl, Or.inl rfl,
    c5_recover_stale 1 400 300 staleStore staleRow (by decide) rfl rfl (Or.inl rfl)⟩

/-- C10: force_retry, for a recipient of any status (terminal SUCCESS and
FAIL_PERM included), sets status = FAIL_RETRYABLE, sets next_attempt_after to
the current time, decrements attempts by exactly one but never below zero,
and leaves the recipient eligible for lease_next_uid from that time on, so a
successfully sent recipient can be re-leased and re-sent. -/
theorem c10_force_retry (uidId now : Nat) (st : Store) (r : Row)
    (hmem : r ∈ st.rows) (hid : r.id = uidId) :
    ∃ r' ∈ (forceRetry uidId now st).rows,
      r'.id = r.id ∧ r'.status = STATUS_FAIL_RETRYABLE ∧
      r'.nextAttemptAfter = some now ∧
      (r.attempts = 0 → r'.attempts = 0) ∧
      (0 < r.attempts → r'.attempts + 1 = r.attempts) ∧
      (∀ now2 : Nat, now ≤ now2 → rowEligible now2 r.profileId r' = true) ∧
      (∀ now2 : Nat, now ≤ now2 → ∀ st2 : Store, r' ∈ st2.rows →
        (leaseNextUid r.profileId now2 st2).1 ≠ none) := by
  obtain ⟨r', hmem', hrid, hstat, hnaa, hprof, hatt⟩ :=
    forceRetry_mem uidId now st r hmem hid
  have helig : ∀ now2 : Nat, now ≤ now2 → rowEligible now2 r.profileId r' = true := by
    intro now2 hle
    apply (rowEligible_iff now2 r.profileId r').mpr
    exact ⟨hprof, Or.inr ⟨hstat, Or.inr ⟨now, hnaa, hle⟩⟩⟩
  refine ⟨r', hmem', hrid, hstat, hnaa, ?_, ?_, helig, ?_⟩
  · intro hz
    rw [hatt, hz]
    decide
  · intro hpos
    rw [hatt, if_pos hpos]
    omega
  · intro now2 hle st2 hmem2
    exact leaseNextUid_isSome_of_eligible hmem2 (helig now2 hle)

/-- Witness for C10: force-retrying a recipient already in SUCCESS at time 50
makes it retryable and leasable again. -/
theorem c10_force_retry_witness :
    successRow ∈ successStore.rows ∧ successRow.id = 1 ∧
    successRow.status = STATUS_SUCCESS ∧
    (∃ r' ∈ (forceRetry 1 50 successStore).rows,
      r'.id = successRow.id ∧ r'.status = STATUS_FAIL_RETRYABLE ∧
      r'.nextAttemptAfter = some 50 ∧
      (successRow.attempts = 0 → r'.attempts = 0) ∧
      (0 < successRow.attempts → r'.attempts + 1 = successRow.attempts) ∧
      (∀ now2 : Nat, 50 ≤ now2 → rowEligible now2 successRow.profileId r' = true) ∧
      (∀ now2 : Nat, 50 ≤ now2 → ∀ st2 : Store, r' ∈ st2.rows →
        (leaseNextUid successRow.profileId now2 st2).1 ≠ none)) :=
  ⟨by decide, rfl, rfl, c10_force_retry 1 50 successStore successRow (by decide) rfl⟩

/-- C1 counterexample: with the engine RUNNING, quota available and a FRESH
recipient leased, an exception "boom" raised by the external send call
propagates out of the processing step (raised = some "boom"); the recipient
is left IN_PROGRESS, no FAIL_RETRYABLE completion happens, no recipient ever
carries a WORKER_EXCEPTION error code, and no RESULT event is appended —
contradicting the claim that the engine catches the exception and completes
the recipient as FAIL_RETRYABLE / WORKER_EXCEPTION. -/
theorem c1_worker_exception_cex :
    (processNextUid 1 demoSettings 5 5 { state := "RUNNING", stateReason := none }
        demoStore zeroCounter (Except.error "boom")).raised = some "boom" ∧
    (processNextUid 1 demoSettings 5 5 { state := "RUNNING", stateReason := none }
        demoStore zeroCounter (Except.error "boom")).store.rows.map Row.status =
      [STATUS_IN_PROGRESS] ∧
    (∀ r ∈ (processNextUid 1 demoSettings 5 5 { state := "RUNNING", stateReason := none }
        demoStore zeroCounter (Except.error "boom")).store.rows,
      r.lastErrorCode ≠ some "WORKER_EXCEPTION") ∧
    (processNextUid 1 demoSettings 5 5 { state := "RUNNING", stateReason := none }
        demoStore zeroCounter (Except.error "boom")).store.events =
      [⟨1, "START"⟩] := by
  refine ⟨by decide, by decide, by decide, by decide⟩

/-- C1 amended: the send call of _process_next_uid is not wrapped in any
try/except, so an exception from the external send operation propagates out
of the per-recipient processing step unchanged; no completion, counter update
or state transition happens after the lease, and the leased recipient stays
IN_PROGRESS in the store. -/
theorem c1_worker_exception_propagates (pid : Nat) (settings : RuntimeSettings)
    (dailyLimit now : Nat) (engine : EngineSt) (st : Store) (c : DailyCounter)
    (e : String) (ret : Row) (st1 : Store)
    (hrun : engine.state = "RUNNING")
    (hq : remainingToday dailyLimit c ≠ 0)
    (hlease : leaseNextUid pid now st = (some ret, st1)) :
    processNextUid pid settings dailyLimit now engine st c (Except.error e) =
      { engine := engine, store := st1, counter := c, leaseCalled := true,
        leasedRow := some ret, raised := some e } ∧
    (∀ r' ∈ st1.rows, r'.id = ret.id → r'.status = STATUS_IN_PROGRESS) := by
  constructor
  · unfold processNextUid
    rw [if_neg (by simp [hrun]), if_neg (by omega)]
    rw [hlease]
  · obtain ⟨r, hrmem, _, _, hret, hrows, _, _⟩ := leaseNextUid_some_spec hlease
    have hretid : ret.id = r.id := by rw [hret]
    intro r' hr' hid'
    rw [hrows] at hr'
    obtain ⟨x, hx, hfx⟩ := List.mem_map.mp hr'
    by_cases hxid : (x.id == r.id) = true
    · rw [← hfx]
      simp only [if_pos hxid]
      rfl
    · rw [← hfx] at hid'
      rw [if_neg hxid] at hid'
      exact absurd (beq_iff_eq.mpr (hid'.trans hretid)) hxid

/-- Witness for C1 at the concrete "boom" exception and singleton FRESH store. -/
theorem c1_worker_exception_propagates_witness :
    (EngineSt.mk "RUNNING" none).state = "RUNNING" ∧
    remainingToday 5 zeroCounter ≠ 0 ∧
    leaseNextUid 1 5 demoStore = (some leasedBaseRow, demoStoreLeased) ∧
    (processNextUid 1 demoSettings 5 5 (EngineSt.mk "RUNNING" none) demoStore zeroCounter
        (Except.error "boom") =
      { engine := EngineSt.mk "RUNNING" none, store := demoStoreLeased,
        counter := zeroCounter, leaseCalled := true,
        leasedRow := some leasedBaseRow, raised := some "boom" } ∧
    (∀ r' ∈ demoStoreLeased.rows, r'.id = leasedBaseRow.id →
      r'.status = STATUS_IN_PROGRESS)) :=
  ⟨rfl, by decide, by decide,
    c1_worker_exception_propagates 1 demoSettings 5 5 (EngineSt.mk "RUNNING" none)
      demoStore zeroCounter "boom" leasedBaseRow demoStoreLeased rfl (by decide) (by decide)⟩

/-- C6 counterexample: importing the single line "# note" — a comment line
under the claim's reading, so its non-comment non-blank count is 0 — yields
added = 0, duplicates = 0 and one invalid entry, so
added + duplicates + len(invalid) = 1 ≠ 0: add_uids never skips comment or
blank lines, it records them as invalid. -/
theorem c6_import_accounting_cex :
    (addUids 1 0 ["# note"] { rows := [], events := [], nextId := 1 }).1.added +
      (addUids 1 0 ["# note"] { rows := [], events := [], nextId := 1 }).1.duplicates +
      (addUids 1 0 ["# note"] { rows := [], events := [], nextId := 1 }).1.invalid.length
      = 1 ∧
    specCountedLines ["# note"] = 0 ∧ (1 : Nat) ≠ 0 := by
  refine ⟨by decide, by decide, by decide⟩

/-- C6 amended: for every import call, added + duplicates + len(invalid)
equals the total number of input lines (blank and '#'-prefixed lines are
counted as invalid, not skipped); a line whose normalized key already exists
for the profile increments duplicates without raising and leaves the store
unchanged; importing the same valid line again yields duplicates = 1 and
added = 0 with the store unchanged. -/
theorem c6_import_accounting (pid now now2 : Nat) (l k : String)
    (hnorm : (normalizeUid l).1 = some k) (hk : k ≠ "") :
    (∀ (lines : List String) (st : Store),
      (addUids pid now lines st).1.added + (addUids pid now lines st).1.duplicates
        + (addUids pid now lines st).1.invalid.length = lines.length) ∧
    (∀ st : Store, hasUid st.rows pid k = true →
      addUids pid now [l] st = ({ added := 0, duplicates := 1, invalid := [] }, st)) ∧
    (∀ st : Store,
      addUids pid now2 [l] (addUids pid now [l] st).2 =
        ({ added := 0, duplicates := 1, invalid := [] }, (addUids pid now [l] st).2)) := by
  refine ⟨addUids_count pid now, ?_, ?_⟩
  · intro st hdup
    exact addUids_dup hnorm hk hdup
  · intro st
    exact addUids_dup hnorm hk (addUids_hasUid_after hnorm hk st)

/-- Witness for C6 with the line "100" (normalizing to key "100") imported
twice into an initially empty store. -/
theorem c6_import_accounting_witness :
    (normalizeUid "100").1 = some "100" ∧ ("100" : String) ≠ "" ∧
    ((∀ (lines : List String) (st : Store),
      (addUids 1 7 lines st).1.added + (addUids 1 7 lines st).1.duplicates
        + (addUids 1 7 lines st).1.invalid.length = lines.length) ∧
    (∀ st : Store, hasUid st.rows 1 "100" = true →
      addUids 1 7 ["100"] st = ({ added := 0, duplicates := 1, invalid := [] }, st)) ∧
    (∀ st : Store,
      addUids 1 8 ["100"] (addUids 1 7 ["100"] st).2 =
        ({ added := 0, duplicates := 1, invalid := [] }, (addUids 1 7 ["100"] st).2))) :=
  ⟨by decide, by decide, c6_import_accounting 1 7 8 "100" "100" (by decide) (by decide)⟩
